import Mathlib

/-!
Verification of the nvdialog-rs binding layer.

The development shallowly embeds the Rust sources of the repository:
host strings are lists of byte values, raw C memory is a byte-valued
function on addresses, native handles are natural numbers, and the
native library (libnvdialog, whose implementation lives outside this
repository) is modelled as an explicit state threaded through the
wrapper functions.  A Rust computation that can panic is embedded as a
`RustOutcome` value.
-/

namespace Nvdialog

/-- A host string, as its UTF-8 byte values (each `< 256`). -/
abbrev ByteStr := List Nat

/-- The condition under which `CString::new` fails (and hence the
`cstr!` macro from `src/util.rs` panics via `expect`): the byte string
contains an embedded null byte. -/
def hasNullByte (s : ByteStr) : Bool := decide (0 ∈ s)

/-- Outcome of a Rust computation that may panic (`expect` / `panic!`).
A panic aborts the caller: no value is returned to it. -/
inductive RustOutcome (α : Type) where
  | panicked
  | ok (value : α)
deriving DecidableEq, Repr

/-! ### The chunked strlen from `src/util.rs`

`strlen` reads the string in 8-byte chunks: it advances by 8 while the
u64 loaded at the cursor ANDed with `0x7F7F7F7F7F7F7F7F` is nonzero,
then finishes with a byte-by-byte scan.  Memory is modelled as a byte
function on offsets from the start pointer; the loops get explicit
fuel because their termination depends on the memory contents. -/

/-- Little-endian u64 load of 8 bytes at offset `p`, the embedding of
`*(s.add(len) as *const u64)` in `src/util.rs`. -/
def readU64 (mem : Nat → Nat) (p : Nat) : Nat :=
  ((List.range 8).map (fun i => (mem (p + i) % 256) * 256 ^ i)).sum

/-- Mask used by the chunked scan in `src/util.rs`. -/
def MASK7F : Nat := 0x7F7F7F7F7F7F7F7F

/-- First loop of `strlen`: `while *(s.add(len) as *const u64) & MASK != 0 { len += 8 }`. -/
def chunkLoop (mem : Nat → Nat) : Nat → Nat → Nat
  | 0, len => len
  | fuel + 1, len =>
    if readU64 mem len &&& MASK7F ≠ 0 then chunkLoop mem fuel (len + 8) else len

/-- Second loop of `strlen`: `while *s.add(len) != 0 { len += 1 }`. -/
def linearLoop (mem : Nat → Nat) : Nat → Nat → Nat
  | 0, len => len
  | fuel + 1, len =>
    if mem len % 256 ≠ 0 then linearLoop mem fuel (len + 1) else len

/-- The hand-rolled chunked `strlen` of `src/util.rs`: the chunk loop
followed by the linear scan from wherever the chunk loop stopped. -/
def strlen (mem : Nat → Nat) (fuel : Nat) : Nat :=
  linearLoop mem fuel (chunkLoop mem fuel 0)

/-- Reference linear strlen: the number of bytes preceding the first
null byte, computed by a plain byte-by-byte scan from offset 0. -/
def strlenRef (mem : Nat → Nat) (fuel : Nat) : Nat :=
  linearLoop mem fuel 0

/-- The bytes of `"Hello, world!"`, the example from the doc comment of
`strlen` in `src/util.rs` (which asserts the result 13). -/
def helloBytes : ByteStr := [72, 101, 108, 108, 111, 44, 32, 119, 111, 114, 108, 100, 33]

/-- Memory holding `"Hello, world!"` followed by a null terminator and
zero padding. -/
def helloMem : Nat → Nat := fun i => helloBytes.getD i 0

/-! ### The error enumeration from `src/error.rs` -/

/-- The `Error` enumeration of `src/error.rs`, mirroring `NvdError`. -/
inductive Error where
  | NoError
  | NoDisplay
  | BackendFailed
  | ParametersError
  | NotYetInitialized
  | InvalidBackend
  | InaccessibleFile
  | EmptyString
  | OutOfMemory
  | InternalError
  | AlreadyInitialized
deriving DecidableEq, Repr

/-- Rust discriminants of `Error` (`member as i32`): `NoError = 0x0`,
`NoDisplay = 0xff`, and the rest follow in sequence. -/
def Error.toI32 : Error → Int
  | .NoError => 0x0
  | .NoDisplay => 0xff
  | .BackendFailed => 0x100
  | .ParametersError => 0x101
  | .NotYetInitialized => 0x102
  | .InvalidBackend => 0x103
  | .InaccessibleFile => 0x104
  | .EmptyString => 0x105
  | .OutOfMemory => 0x106
  | .InternalError => 0x107
  | .AlreadyInitialized => 0x108

/-- The member array traversed by `From<i32> for Error` in `src/error.rs`. -/
def errorMembers : List Error :=
  [.NoError, .NoDisplay, .BackendFailed, .ParametersError, .NotYetInitialized,
   .InvalidBackend, .InaccessibleFile, .EmptyString, .OutOfMemory,
   .InternalError, .AlreadyInitialized]

/-- The `From<i32> for Error` conversion of `src/error.rs`: `result`
starts as `NoError` and each member whose discriminant equals `value`
overwrites it. -/
def Error.fromI32 (value : Int) : Error :=
  errorMembers.foldl (fun result member => if member.toI32 = value then member else result)
    Error.NoError

/-! ### The native library, modelled as explicit state

The Rust sources call into libnvdialog through FFI declarations; the C
implementation is not part of this repository, so its behaviour at the
boundary is modelled from the spec. -/

/-- State of the native library: whether `nvd_init` has succeeded, the
last error code it recorded, and a counter supplying fresh handles. -/
structure NativeState where
  initialized : Bool
  lastError : Int
  nextHandle : Nat
deriving DecidableEq, Repr

/-- Modelled from the spec: `nvd_init` (its C implementation is outside
this repository) returns 0 and marks the library initialized on first
call, and returns the "already initialized" code on a second call
("Calling initialization twice must return already initialized on the
second call"). -/
def nvd_init (st : NativeState) : Int × NativeState :=
  if st.initialized then (Error.toI32 .AlreadyInitialized, st)
  else (0, { st with initialized := true })

/-- Modelled from the spec: every native dialog constructor called
before library initialization fails — it returns a null handle and
records the "not initialized" error code — and after initialization it
allocates a fresh non-null handle ("If create is called before library
initialization, it must fail with a not initialized error rather than
crash"). -/
def nvdNewHandle (st : NativeState) : Option Nat × NativeState :=
  if st.initialized then
    (some st.nextHandle, { st with nextHandle := st.nextHandle + 1 })
  else
    (none, { st with lastError := Error.toI32 .NotYetInitialized })

/-- The `nvd_get_error` accessor: the last error code the native
library recorded. -/
def nvd_get_error (st : NativeState) : Int := st.lastError

/-- Native calls recorded when a dialog is created, embedding which
arguments actually cross the FFI boundary. -/
inductive FfiCall where
  | dialogBoxNew (title msg : ByteStr) (ty : Int)
  | dialogQuestionNew (title msg : ByteStr) (buttons : Int)
  | notificationNew (title msg : ByteStr) (kind : Nat)
  | inputBoxNew (title prompt : ByteStr)
  | openFileDialogNew (title extensions : ByteStr)
  | saveFileDialogNew (title defaultName : ByteStr)
deriving DecidableEq, Repr

/-! ### Dialog wrappers from the Rust sources -/

/-- The `DialogType` enumeration of `src/dialog_box.rs`. -/
inductive DialogType where
  | Simple
  | Warning
  | Error
deriving DecidableEq, Repr

/-- The `_type` integer computed by `DialogBox::new`: `Simple` is
`0xff`, `Warning` is `0xff + 1`, `Error` is `0xff + 2`. -/
def DialogType.code : DialogType → Int
  | .Simple => 0xff
  | .Warning => 0xff + 1
  | .Error => 0xff + 2

/-- The `DialogBox` wrapper of `src/dialog_box.rs`: it owns a (non-null)
raw handle. -/
structure DialogBox where
  raw : Nat
deriving DecidableEq, Repr

/-- Embedding of `DialogBox::new` from `src/dialog_box.rs`: the title
and message are converted with `CString::new(..).expect(..)`, which
panics on an embedded null byte; then `nvd_dialog_box_new` is called,
a null return is mapped to `Err(Error::from(nvd_get_error()))`, and a
non-null return is wrapped in `Ok`. -/
def DialogBox.new (st : NativeState) (title msg : ByteStr) (ty : DialogType) :
    RustOutcome (Except Error DialogBox) × NativeState :=
  if hasNullByte title || hasNullByte msg then (.panicked, st)
  else
    let r := nvdNewHandle st
    match r.1 with
    | none => (.ok (.error (Error.fromI32 (nvd_get_error r.2))), r.2)
    | some h => (.ok (.ok ⟨h⟩), r.2)

/-- The `QuestionDialogButtons` enumeration of `src/question_dialog.rs`. -/
inductive QuestionDialogButtons where
  | Yes
  | YesNo
  | YesNoCancel
deriving DecidableEq, Repr

/-- The `QuestionDialog` wrapper of `src/question_dialog.rs`: the raw
handle may be null (`Option`), since `QuestionDialog::new` stores
whatever pointer the native call returned without checking it. -/
structure QuestionDialog where
  raw : Option Nat
  title : ByteStr
  msg : ByteStr
  buttons : QuestionDialogButtons
deriving DecidableEq, Repr

/-- Embedding of `QuestionDialog::new` from `src/question_dialog.rs`:
`cstr!` panics on embedded null bytes, then the native constructor is
called and its result — null or not — is stored in the returned
wrapper.  The function's return type is `Self`, not `Result`: no error
is ever reported to the caller. -/
def QuestionDialog.new (st : NativeState) (title msg : ByteStr)
    (buttons : QuestionDialogButtons) : RustOutcome QuestionDialog × NativeState :=
  if hasNullByte title || hasNullByte msg then (.panicked, st)
  else
    let r := nvdNewHandle st
    (.ok ⟨r.1, title, msg, buttons⟩, r.2)

/-- The `NotificationKind` enumeration of `src/notification.rs`. -/
inductive NotificationKind where
  | Simple
  | Warning
  | Error
deriving DecidableEq, Repr

/-- The `Notification` wrapper of `src/notification.rs`. -/
structure Notification where
  raw : Nat
deriving DecidableEq, Repr

/-- Embedding of `Notification::new` from `src/notification.rs`: the
strings are converted by the `c_string!` macro — modelled from the
spec: the macro lives in the `nvdialog-sys` crate whose `lib.rs` is not
among the sources; like `cstr!` in `src/util.rs` it performs a
`CString` conversion that fails on embedded null bytes ("embedded null
byte in a supplied string" is a host-side conversion failure).  A null
native return is mapped to `Err(Error::OutOfMemory)`. -/
def Notification.new (st : NativeState) (title msg : ByteStr)
    (kind : NotificationKind) : RustOutcome (Except Error Notification) × NativeState :=
  if hasNullByte title || hasNullByte msg then (.panicked, st)
  else
    let r := nvdNewHandle st
    match r.1 with
    | none => (.ok (.error .OutOfMemory), r.2)
    | some h => (.ok (.ok ⟨h⟩), r.2)

/-- The `InputBox` wrapper of `src/input_box.rs`: the raw handle may be
null since `InputBox::new` stores the native result unchecked. -/
structure InputBox where
  raw : Option Nat
  user_input : Option ByteStr
deriving DecidableEq, Repr

/-- Embedding of `InputBox::new` from `src/input_box.rs`: `cstr!`
panics on embedded null bytes; the native result is stored unchecked
and no error is ever reported (the return type is `Self`). -/
def InputBox.new (st : NativeState) (title prompt : ByteStr) :
    RustOutcome InputBox × NativeState :=
  if hasNullByte title || hasNullByte prompt then (.panicked, st)
  else
    let r := nvdNewHandle st
    (.ok ⟨r.1, none⟩, r.2)

/-- The `FileDialogType` enumeration of `src/file_dialog.rs`. -/
inductive FileDialogType where
  | OpenFile
  | SaveFile
deriving DecidableEq, Repr

/-- The `FileDialog` wrapper of `src/file_dialog.rs`: the raw handle
may be null since `FileDialog::new` stores the native result unchecked. -/
structure FileDialog where
  raw : Option Nat
  location_chosen : Option ByteStr
deriving DecidableEq, Repr

/-- The filter-string construction in `FileDialog::new`: for each
extension the loop appends the extension, then `";"` (byte 59), then
`"\0"` (byte 0). -/
def buildExtensions (exts : List ByteStr) : ByteStr :=
  exts.foldl (fun acc e => acc ++ e ++ [59, 0]) []

/-- The bytes of `"filename"`, the default name passed by the
`SaveFile` branch of `FileDialog::new`. -/
def filenameBytes : ByteStr := [102, 105, 108, 101, 110, 97, 109, 101]

/-- Embedding of `FileDialog::new` from `src/file_dialog.rs`.  The
extension list is first folded into a single string; in the `OpenFile`
branch the title and that string are converted with `c_string!`
(modelled from the spec, as for `Notification.new`: a `CString`
conversion that panics on embedded null bytes) and passed to
`nvd_open_file_dialog_new`; the `SaveFile` branch passes the title and
`"filename"` instead.  The returned `FfiCall` records which arguments
reached the native layer. -/
def FileDialog.new (st : NativeState) (title : ByteStr) (ty : FileDialogType)
    (exts : List ByteStr) : RustOutcome (FileDialog × FfiCall) × NativeState :=
  let extensions := buildExtensions exts
  match ty with
  | .OpenFile =>
    if hasNullByte title then (.panicked, st)
    else if hasNullByte extensions then (.panicked, st)
    else
      let r := nvdNewHandle st
      (.ok (⟨r.1, none⟩, .openFileDialogNew title extensions), r.2)
  | .SaveFile =>
    if hasNullByte title then (.panicked, st)
    else
      let r := nvdNewHandle st
      (.ok (⟨r.1, none⟩, .saveFileDialogNew title filenameBytes), r.2)

/-- Embedding of `init` from `src/lib.rs`: call `nvd_init` and map a
zero status to `Ok(())`, any other status to `Err(Error::from(status))`. -/
def init (st : NativeState) : Except Error Unit × NativeState :=
  let r := nvd_init st
  if r.1 = 0 then (.ok (), r.2) else (.error (Error.fromI32 r.1), r.2)

/-! ### Handle lifecycle and release discipline

Each wrapper type implements `Drop`; the bodies of the Drop impls are
transcribed below.  Rust's ownership semantics run the Drop glue
exactly once when the wrapper goes out of scope, on every exit path;
a wrapper's complete lifetime trace is therefore its method calls
followed by one run of its Drop calls. -/

/-- Native calls a live wrapper can make: its methods' calls and the
release calls of the Drop impls. -/
inductive NativeCall where
  | freeObject (h : Nat)
  | deleteNotification (h : Nat)
  | showDialog (h : Nat)
  | setAcceptText (h : Nat) (label : ByteStr)
  | getReply (h : Nat)
  | sendNotification (h : Nat)
  | addNotificationAction (h : Nat) (name : ByteStr) (value : Int)
  | showInputBox (h : Nat)
  | inputBoxGetString (h : Nat)
deriving DecidableEq, Repr

/-- The four handle-wrapper kinds whose Drop impls release a native
dialog handle. -/
inductive WrapperKind where
  | dialogBox
  | questionDialog
  | notification
  | inputBox
deriving DecidableEq, Repr

/-- The native calls each wrapper's Drop glue makes, transcribed from
the sources: `Drop for DialogBox` calls `nvd_free_object(self.raw)`;
`Drop for QuestionDialog` calls `Object::free`, which calls
`nvd_free_object(self.raw)`; `Drop for Notification` calls
`nvd_delete_notification(self.raw)`; `Drop for InputBox` calls
`Object::free`, which calls `nvd_free_object(self.raw)`. -/
def dropCalls : WrapperKind → Nat → List NativeCall
  | .dialogBox, h => [.freeObject h]
  | .questionDialog, h => [.freeObject h]
  | .notification, h => [.deleteNotification h]
  | .inputBox, h => [.freeObject h]

/-- The native calls the non-Drop methods of each wrapper may emit on
its own handle, from the sources: `DialogBox::show` and
`DialogBox::set_accept_label`; `QuestionDialog::get_reply` (also used
by `Object::show`) and the public safe `Object::free` of
`QuestionDialog`, which calls `nvd_free_object` on the handle;
`Notification::send` and `Notification::add_action`;
`InputBox::display` (which calls `nvd_show_input_box` and
`nvd_input_box_get_string`) and the public safe `Object::free` of
`InputBox`, which also calls `nvd_free_object`. -/
def methodCall (k : WrapperKind) (h : Nat) (c : NativeCall) : Prop :=
  match k with
  | .dialogBox => c = .showDialog h ∨ ∃ l, c = .setAcceptText h l
  | .questionDialog => c = .getReply h ∨ c = .freeObject h
  | .notification => c = .sendNotification h ∨ ∃ n v, c = .addNotificationAction h n v
  | .inputBox => c = .showInputBox h ∨ c = .inputBoxGetString h ∨ c = .freeObject h

/-- Whether a native call releases the handle `h`: the free functions
invoked by the Drop impls (`nvd_free_object`, `nvd_delete_notification`)
applied to `h`. -/
def releases (c : NativeCall) (h : Nat) : Bool :=
  match c with
  | .freeObject g => g = h
  | .deleteNotification g => g = h
  | _ => false

/-- Number of calls in a trace that release handle `h`. -/
def releaseCount (trace : List NativeCall) (h : Nat) : Nat :=
  (trace.filter (fun c => releases c h)).length

/-- A wrapper's complete lifetime trace: the native calls of its method
uses, then its Drop glue, which Rust runs exactly once at scope exit on
every code path (normal return or early exit). -/
def lifetimeTrace (k : WrapperKind) (h : Nat) (uses : List NativeCall) : List NativeCall :=
  uses ++ dropCalls k h

/-! ### The DynamicString bridge from `src/string.rs` -/

/-- Modelled from the spec: `nvd_string_new` (its C implementation is
outside this repository) allocates a fresh native string handle,
mirroring the supplied bytes; per the spec a native string is "created
on demand from host strings" and freed by its owner, so absent an
allocation failure the returned handle is non-null. -/
def nvd_string_new (st : NativeState) (data : Option ByteStr) : Option Nat × NativeState :=
  match data with
  | some _ => (some st.nextHandle, { st with nextHandle := st.nextHandle + 1 })
  | none => (some st.nextHandle, { st with nextHandle := st.nextHandle + 1 })

/-- The `DynamicString` wrapper of `src/string.rs`: the native handle
plus the mirrored host copy `this`. -/
structure DynamicString where
  native : Nat
  this : ByteStr
deriving DecidableEq, Repr

/-- Embedding of `DynamicString::new` from `src/string.rs`: for `Some`
data, `cstr!` panics on embedded null bytes, the bytes are passed to
`nvd_string_new` (a null return panics), and the host text is mirrored
into `this`; for `None`, a null pointer is passed and `this` is the
empty string. -/
def DynamicString.new (st : NativeState) (data : Option ByteStr) :
    RustOutcome DynamicString × NativeState :=
  match data with
  | some s =>
    if hasNullByte s then (.panicked, st)
    else
      let r := nvd_string_new st (some s)
      match r.1 with
      | none => (.panicked, r.2)
      | some h => (.ok ⟨h, s⟩, r.2)
  | none =>
    let r := nvd_string_new st none
    match r.1 with
    | none => (.panicked, r.2)
    | some h => (.ok ⟨h, []⟩, r.2)

/-- Embedding of `DynamicString::as_str` from `src/string.rs`: a
reference to the mirrored internal copy. -/
def DynamicString.as_str (d : DynamicString) : ByteStr := d.this

/-- The UTF-8 bytes of `"héllo"`, the round-trip example text. -/
def helloAccentBytes : ByteStr := [104, 195, 169, 108, 108, 111]

/-- Whether a constructor outcome returned a typed error to the caller
(an `Ok`-returned `Err` value, as opposed to a panic or a success). -/
def returnedTypedError {α : Type} : RustOutcome (Except Error α) → Bool
  | .ok (.error _) => true
  | _ => false

/-- Whether a `FileDialog::new` outcome passed exactly the given title
and filter string to the native open-file constructor. -/
def passesFilters (r : RustOutcome (FileDialog × FfiCall)) (title exts : ByteStr) : Bool :=
  match r with
  | .ok (_, .openFileDialogNew t e) => t = title && e = exts
  | _ => false

end Nvdialog

namespace Nvdialog

/-- C1: the chunked `strlen` disagrees with the reference linear strlen
on the null-terminated input `"Hello, world!"` (zero padding after the
terminator): the chunk loop only stops on a chunk whose bytes all have
zero low-7 bits, so it skips past the terminator at offset 13 and the
function returns 16, while the byte count preceding the first null byte
is 13 (the value asserted by the function's own doc-comment example). -/
theorem strlen_hello_mismatch :
    strlen helloMem 32 = 16 ∧ strlenRef helloMem 32 = 13 := by
  constructor <;> rfl

/-- C9: converting a variant's own discriminant back through
`Error::from` recovers the variant, for each of the eleven variants. -/
theorem error_fromI32_toI32 (e : Error) : Error.fromI32 e.toI32 = e := by
  cases e <;> rfl

/-- Helper: a native call permitted to a wrapper's non-Drop methods and
distinct from the manual `Object::free` call never releases the
wrapper's handle. -/
theorem releases_eq_false_of_methodCall {k : WrapperKind} {h : Nat} {c : NativeCall}
    (hc : methodCall k h c) (hne : c ≠ .freeObject h) : releases c h = false := by
  cases k with
  | dialogBox =>
    simp only [methodCall] at hc
    rcases hc with hc | ⟨l, hc⟩ <;> subst hc <;> rfl
  | questionDialog =>
    simp only [methodCall] at hc
    rcases hc with hc | hc
    · subst hc; rfl
    · exact absurd hc hne
  | notification =>
    simp only [methodCall] at hc
    rcases hc with hc | ⟨n, v, hc⟩ <;> subst hc <;> rfl
  | inputBox =>
    simp only [methodCall] at hc
    rcases hc with hc | hc | hc
    · subst hc; rfl
    · subst hc; rfl
    · exact absurd hc hne

/-- Helper: the empty byte string has no null byte. -/
theorem hasNullByte_nil : hasNullByte [] = false := rfl

/-- Helper: release counts add over concatenated traces. -/
theorem releaseCount_append (a b : List NativeCall) (h : Nat) :
    releaseCount (a ++ b) h = releaseCount a h + releaseCount b h := by
  simp [releaseCount, List.filter_append]

/-- Helper: each wrapper's Drop glue releases its own handle exactly once. -/
theorem releaseCount_dropCalls (k : WrapperKind) (h : Nat) :
    releaseCount (dropCalls k h) h = 1 := by
  cases k <;> simp [releaseCount, dropCalls, releases]

/-- Counterexample for C2: `Object::free` is a public safe method of
`QuestionDialog` (and `InputBox`) that calls `nvd_free_object` on the
wrapper's handle, so a lifetime in which the caller invokes it once —
a valid method call of the wrapper — and the automatic Drop then runs
at scope exit releases the same handle twice, refuting "never runs
twice for the same handle" (a double-free hazard `src/object.rs` itself
documents). -/
theorem questionDialog_manual_free_double_release :
    methodCall .questionDialog 5 (.freeObject 5) ∧
    releaseCount (lifetimeTrace .questionDialog 5 [.freeObject 5]) 5 = 2 :=
  ⟨Or.inr rfl, rfl⟩

/-- C2 (amended): over a wrapper's complete lifetime — any sequence of
its own method calls followed by the one run of its Drop glue that
Rust performs at scope exit, on every code path — the native release
function is invoked on the wrapper's handle exactly once, provided the
caller never invokes the public safe `Object::free` manually: the
remaining methods never release the handle and the Drop glue releases
it once.  (For `DialogBox` and `Notification`, whose method sets
contain no releasing call, the proviso is vacuous.) -/
theorem wrapper_releases_exactly_once_without_manual_free (k : WrapperKind) (h : Nat)
    (uses : List NativeCall) (hu : ∀ c ∈ uses, methodCall k h c)
    (hnf : NativeCall.freeObject h ∉ uses) :
    releaseCount (lifetimeTrace k h uses) h = 1 := by
  have hfil : uses.filter (fun c => releases c h) = [] := by
    rw [List.filter_eq_nil_iff]
    intro c hc
    have hne : c ≠ NativeCall.freeObject h := fun he => hnf (he ▸ hc)
    simp [releases_eq_false_of_methodCall (hu c hc) hne]
  have huse : releaseCount uses h = 0 := by
    unfold releaseCount
    rw [hfil]
    rfl
  unfold lifetimeTrace
  rw [releaseCount_append, huse, releaseCount_dropCalls]

/-- Witness for C2 (amended): a question dialog queried once for its
reply and then dropped, with no manual free, has its handle released
exactly once. -/
theorem wrapper_releases_exactly_once_without_manual_free_witness :
    NativeCall.freeObject 5 ∉ ([.getReply 5] : List NativeCall) ∧
    releaseCount (lifetimeTrace .questionDialog 5 [.getReply 5]) 5 = 1 :=
  ⟨by decide,
    wrapper_releases_exactly_once_without_manual_free .questionDialog 5 [.getReply 5]
      (by
        intro c hc
        simp only [List.mem_singleton] at hc
        subst hc
        exact Or.inl rfl)
      (by decide)⟩

/-- Counterexample for C3: constructing a `DialogBox` whose title
contains an embedded null byte does not return a typed error to the
caller — the `expect` in the `CString` conversion panics instead. -/
theorem dialogBox_null_byte_no_typed_error :
    (DialogBox.new ⟨true, 0, 0⟩ [0] [109] .Simple).1 = .panicked ∧
    returnedTypedError (DialogBox.new ⟨true, 0, 0⟩ [0] [109] .Simple).1 = false := by
  constructor <;> rfl

/-- C3 (amended): constructing any dialog handle with a string argument
containing an embedded null byte panics in the `CString` conversion
before any native call — it neither silently truncates nor returns a
typed error. -/
theorem constructors_null_byte_panic (st : NativeState) (title msg : ByteStr)
    (ty : DialogType) (b : QuestionDialogButtons) (k : NotificationKind)
    (h : hasNullByte title = true ∨ hasNullByte msg = true) :
    (DialogBox.new st title msg ty).1 = .panicked ∧
    (QuestionDialog.new st title msg b).1 = .panicked ∧
    (Notification.new st title msg k).1 = .panicked ∧
    (InputBox.new st title msg).1 = .panicked := by
  rcases h with h | h <;>
    exact ⟨by simp [DialogBox.new, h], by simp [QuestionDialog.new, h],
      by simp [Notification.new, h], by simp [InputBox.new, h]⟩

/-- Witness for C3 (amended): a title consisting of a single null byte
makes all four constructors panic. -/
theorem constructors_null_byte_panic_witness :
    hasNullByte [0] = true ∧
    ((DialogBox.new ⟨true, 0, 0⟩ [0] [109] .Simple).1 = .panicked ∧
     (QuestionDialog.new ⟨true, 0, 0⟩ [0] [109] .YesNo).1 = .panicked ∧
     (Notification.new ⟨true, 0, 0⟩ [0] [109] .Simple).1 = .panicked ∧
     (InputBox.new ⟨true, 0, 0⟩ [0] [109]).1 = .panicked) :=
  ⟨rfl, constructors_null_byte_panic ⟨true, 0, 0⟩ [0] [109] .Simple .YesNo .Simple
    (Or.inl rfl)⟩

/-- Counterexample for C4: `QuestionDialog::new` called before library
initialization does not return an `Err` — its return type is `Self`,
and it hands back a wrapper holding the null handle the native layer
returned, signalling no error at all. -/
theorem questionDialog_before_init_no_error :
    (QuestionDialog.new ⟨false, 0, 0⟩ [116] [109] .YesNo).1 =
      .ok ⟨none, [116], [109], .YesNo⟩ := by
  rfl

/-- C4 (amended): called before initialization with well-formed
strings, `DialogBox::new` returns `Err(NotYetInitialized)` and
`Notification::new` returns a typed error (though `OutOfMemory`, not
`NotYetInitialized`), while `QuestionDialog::new`, `InputBox::new` and
`FileDialog::new` return a wrapper holding a null native handle and
report no error. -/
theorem constructors_before_init (st : NativeState) (title msg : ByteStr)
    (ty : DialogType) (b : QuestionDialogButtons) (k : NotificationKind)
    (hinit : st.initialized = false)
    (ht : hasNullByte title = false) (hm : hasNullByte msg = false) :
    (DialogBox.new st title msg ty).1 = .ok (.error .NotYetInitialized) ∧
    (QuestionDialog.new st title msg b).1 = .ok ⟨none, title, msg, b⟩ ∧
    (Notification.new st title msg k).1 = .ok (.error .OutOfMemory) ∧
    (InputBox.new st title msg).1 = .ok ⟨none, none⟩ ∧
    (FileDialog.new st title .OpenFile []).1 =
      .ok (⟨none, none⟩, .openFileDialogNew title []) := by
  refine ⟨?_, ?_, ?_, ?_, ?_⟩ <;>
    simp [DialogBox.new, QuestionDialog.new, Notification.new, InputBox.new,
      FileDialog.new, buildExtensions, hasNullByte_nil, nvdNewHandle,
      nvd_get_error, hinit, ht, hm, Error.fromI32, errorMembers, Error.toI32]

/-- Witness for C4 (amended): concrete uninitialized state and
null-free strings. -/
theorem constructors_before_init_witness :
    (DialogBox.new ⟨false, 0, 0⟩ [116] [109] .Simple).1 = .ok (.error .NotYetInitialized) ∧
    (QuestionDialog.new ⟨false, 0, 0⟩ [116] [109] .YesNo).1 = .ok ⟨none, [116], [109], .YesNo⟩ ∧
    (Notification.new ⟨false, 0, 0⟩ [116] [109] .Simple).1 = .ok (.error .OutOfMemory) ∧
    (InputBox.new ⟨false, 0, 0⟩ [116] [109]).1 = .ok ⟨none, none⟩ ∧
    (FileDialog.new ⟨false, 0, 0⟩ [116] .OpenFile []).1 =
      .ok (⟨none, none⟩, .openFileDialogNew [116] []) :=
  constructors_before_init ⟨false, 0, 0⟩ [116] [109] .Simple .YesNo .Simple rfl rfl rfl

/-- C5: `init` returns `Ok(())` exactly when the `nvd_init` status is
zero, otherwise the typed error mapped from the nonzero status; and a
second `init` after a successful first call returns
`Err(AlreadyInitialized)`. -/
theorem init_status_mapping (st : NativeState) :
    ((init st).1 = .ok () ↔ (nvd_init st).1 = 0) ∧
    ((nvd_init st).1 ≠ 0 → (init st).1 = .error (Error.fromI32 (nvd_init st).1)) ∧
    (st.initialized = false → (init (init st).2).1 = .error .AlreadyInitialized) := by
  refine ⟨?_, ?_, ?_⟩
  · by_cases h : st.initialized <;> simp [init, nvd_init, h, Error.toI32]
  · intro hne
    simp [init, hne]
  · intro h
    simp [init, nvd_init, h, Error.fromI32, errorMembers, Error.toI32]

/-- Witness for C5: from a fresh state the first `init` succeeds, the
second returns `AlreadyInitialized`; from an initialized state the
nonzero status is mapped through `Error::from`. -/
theorem init_status_mapping_witness :
    (init ⟨false, 0, 0⟩).1 = .ok () ∧
    (init (init ⟨false, 0, 0⟩).2).1 = .error .AlreadyInitialized ∧
    (init ⟨true, 0, 0⟩).1 = .error (Error.fromI32 (nvd_init ⟨true, 0, 0⟩).1) :=
  ⟨((init_status_mapping ⟨false, 0, 0⟩).1).mpr (by decide),
   (init_status_mapping ⟨false, 0, 0⟩).2.2 rfl,
   (init_status_mapping ⟨true, 0, 0⟩).2.1 (by decide)⟩

/-- Helper: the filter-string fold preserves membership of the null
byte in its accumulator. -/
theorem zero_mem_buildExtensions_aux (es : List ByteStr) (acc : ByteStr)
    (h : 0 ∈ acc) : 0 ∈ es.foldl (fun acc e => acc ++ e ++ [59, 0]) acc := by
  induction es generalizing acc with
  | nil => exact h
  | cons e es ih => exact ih _ (by simp [h])

/-- Helper: the filter string built from a non-empty extension list
contains a null byte. -/
theorem zero_mem_buildExtensions (e : ByteStr) (es : List ByteStr) :
    0 ∈ buildExtensions (e :: es) := by
  unfold buildExtensions
  rw [List.foldl_cons]
  exact zero_mem_buildExtensions_aux es _ (by simp)

/-- Counterexample for C6: with the one-element extension list
`["png"]`, `FileDialog::new` does not pass the built filter string to
the native layer — the conversion panics first, so no native call with
those filters ever happens. -/
theorem fileDialog_filters_not_passed :
    passesFilters (FileDialog.new ⟨true, 0, 0⟩ [116] .OpenFile [[112, 110, 103]]).1
      [116] (buildExtensions [[112, 110, 103]]) = false := by
  rfl

/-- C6 (amended): `FileDialog::new` builds a single string from the
extension list by appending each extension followed by a semicolon and
a null byte; for the empty list that (empty) filter string is passed to
the native open-file constructor, but for every non-empty list the
intermediate `CString` conversion panics on the embedded null bytes, so
the filters never reach the native layer. -/
theorem fileDialog_filter_passing (st : NativeState) (title : ByteStr)
    (ht : hasNullByte title = false) :
    passesFilters (FileDialog.new st title .OpenFile []).1 title [] = true ∧
    ∀ e es, (FileDialog.new st title .OpenFile (e :: es)).1 = .panicked := by
  constructor
  · simp [FileDialog.new, buildExtensions, ht, passesFilters, hasNullByte_nil]
  · intro e es
    have h0 : hasNullByte (buildExtensions (e :: es)) = true := by
      simp only [hasNullByte, decide_eq_true_eq]
      exact zero_mem_buildExtensions e es
    simp [FileDialog.new, ht, h0]

/-- Witness for C6 (amended): a null-free title, the empty extension
list, and the list `["png"]`. -/
theorem fileDialog_filter_passing_witness :
    hasNullByte [116] = false ∧
    passesFilters (FileDialog.new ⟨true, 0, 0⟩ [116] .OpenFile []).1 [116] [] = true ∧
    (FileDialog.new ⟨true, 0, 0⟩ [116] .OpenFile [[112, 110, 103]]).1 = .panicked :=
  ⟨rfl, (fileDialog_filter_passing ⟨true, 0, 0⟩ [116] rfl).1,
    (fileDialog_filter_passing ⟨true, 0, 0⟩ [116] rfl).2 [112, 110, 103] []⟩

/-- C7: converting any integer that is not one of the eleven enumerated
discriminants yields `NoError`, the variant the conversion explicitly
starts from — a defensive default that denotes the absence of an error
rather than a meaningful error state. -/
theorem error_fromI32_out_of_range (v : Int) (h : ∀ e : Error, v ≠ Error.toI32 e) :
    Error.fromI32 v = .NoError := by
  have hs : ∀ e : Error, ¬ (Error.toI32 e = v) := fun e he => h e he.symm
  simp only [Error.fromI32, errorMembers, List.foldl_cons, List.foldl_nil,
    if_neg (hs .NoError), if_neg (hs .NoDisplay), if_neg (hs .BackendFailed),
    if_neg (hs .ParametersError), if_neg (hs .NotYetInitialized),
    if_neg (hs .InvalidBackend), if_neg (hs .InaccessibleFile),
    if_neg (hs .EmptyString), if_neg (hs .OutOfMemory),
    if_neg (hs .InternalError), if_neg (hs .AlreadyInitialized)]

/-- Witness for C7: the value 1 is not a discriminant and maps to
`NoError`. -/
theorem error_fromI32_out_of_range_witness : Error.fromI32 1 = .NoError :=
  error_fromI32_out_of_range 1 (by intro e; cases e <;> decide)

/-- C8: constructing a `DynamicString` from host text without embedded
null bytes and reading it back through `as_str` yields the identical
text, since the constructor mirrors the bytes into the wrapper. -/
theorem dynamicString_roundtrip (st : NativeState) (s : ByteStr)
    (h : hasNullByte s = false) :
    ∃ d : DynamicString, (DynamicString.new st (some s)).1 = .ok d ∧ d.as_str = s := by
  refine ⟨⟨st.nextHandle, s⟩, ?_, rfl⟩
  simp [DynamicString.new, nvd_string_new, h]

/-- Witness for C8: the round trip at the UTF-8 text `"héllo"`. -/
theorem dynamicString_roundtrip_witness :
    hasNullByte helloAccentBytes = false ∧
    ∃ d : DynamicString,
      (DynamicString.new ⟨true, 0, 0⟩ (some helloAccentBytes)).1 = .ok d ∧
      d.as_str = helloAccentBytes :=
  ⟨rfl, dynamicString_roundtrip ⟨true, 0, 0⟩ helloAccentBytes rfl⟩

/-- C10: `FileDialog::new` with `OpenFile` and any non-empty extension
list panics: the built filter string carries a null byte after each
semicolon, so the `CString` conversion fails its `expect` before the
native call is reached. -/
theorem fileDialog_open_nonempty_exts_panics (st : NativeState) (title : ByteStr)
    (exts : List ByteStr) (hne : exts ≠ []) :
    (FileDialog.new st title .OpenFile exts).1 = .panicked := by
  cases exts with
  | nil => exact absurd rfl hne
  | cons e es =>
    have h0 : hasNullByte (buildExtensions (e :: es)) = true := by
      simp only [hasNullByte, decide_eq_true_eq]
      exact zero_mem_buildExtensions e es
    rcases Bool.eq_false_or_eq_true (hasNullByte title) with ht | ht <;>
      simp [FileDialog.new, ht, h0]

/-- Witness for C10: the non-empty extension list `["png"]` makes the
open-file constructor panic. -/
theorem fileDialog_open_nonempty_exts_panics_witness :
    ([[112, 110, 103]] : List ByteStr) ≠ [] ∧
    (FileDialog.new ⟨true, 0, 0⟩ [116] .OpenFile [[112, 110, 103]]).1 = .panicked :=
  ⟨by decide,
    fileDialog_open_nonempty_exts_panics ⟨true, 0, 0⟩ [116] [[112, 110, 103]] (by decide)⟩

end Nvdialog
